import Mathlib

/-!
# Verification of the tap-handle CAD generator (`cad/tap_handle.py`)

Shallow embedding of the script's own logic. The external geometry kernel
(build123d) is not reimplemented: solids are represented by a syntax tree
(`Shape`) recording exactly the sequence of kernel calls the script makes,
and the kernel's edge enumeration `Shape.edges()` is abstracted as a
function parameter `E : Shape → List Edge`.

Numeric modelling: the spec fields and edge centroids are Python floats;
every IEEE float value is a rational number, so they are modelled as `ℚ`
(this keeps the edge-selection filter decidable and executable, exactly as
it is in the code).  The one arithmetic step whose idealized value is
irrational — `2 ** 0.5` — and the dimensions derived from it live in `ℝ`;
shape dimensions are therefore `ℝ` (rational inputs are cast).
-/

/-- Alignment anchors used by the script (`bde.align.ANCHOR_TOP` /
`bde.align.ANCHOR_BOTTOM`): a primitive is centered in X and Y and has its
top (resp. bottom) face at the local Z origin. -/
inductive Align where
  | anchorTop
  | anchorBottom
deriving DecidableEq, Repr

/-- A 3D point, as returned by `edge.center()` (fields `X`, `Y`, `Z`).
Kernel-computed float coordinates, modelled as exact rationals. -/
structure Point3 where
  X : ℚ
  Y : ℚ
  Z : ℚ
deriving DecidableEq, Repr

/-- A kernel edge, exposing only what the script reads: its centroid. -/
structure Edge where
  center : Point3
deriving DecidableEq, Repr

/-- A 2D sketch used by the script: `bd.RegularPolygon(radius, side_count)`
(circumradius `radius`). -/
inductive Sketch where
  | regularPolygon (radius : ℝ) (side_count : ℕ)

/-- Syntax tree of the kernel operations the script performs.  Each
constructor records one kernel call with the arguments the script passes;
booleans, translation, fillet and extrusion are left uninterpreted (they
belong to the external kernel). -/
inductive Shape where
  /-- `bd.Part(None)`: the empty part used as a seed for `+=`. -/
  | empty
  | cylinder (radius height : ℝ) (align : Align)
  | box (length width height : ℝ) (align : Align)
  /-- `bd.extrude(sketch, amount)`. -/
  | extrude (sk : Sketch) (amount : ℝ)
  | union (a b : Shape)
  | diff (a b : Shape)
  /-- `bd.Pos(Z=z) * s`: translate `s` by `z` along Z. -/
  | pos (z : ℝ) (s : Shape)
  /-- `bd.fillet(edge_list, radius)` / `s.fillet(edge_list=…, radius=…)`. -/
  | fillet (radius : ℝ) (edge_list : List Edge) (s : Shape)

/-- The kernel's `+` on parts: adding to the empty part `bd.Part(None)`
yields the other part; otherwise it is a boolean union. -/
def Shape.add : Shape → Shape → Shape
  | Shape.empty, t => t
  | s, t => Shape.union s t

/-- `TapHandleSpec`: the dataclass of millimeter dimensions, with the
source's default values.  A plain (non-frozen) dataclass: field assignment
is permitted after construction (see `TapHandleSpec.set_tap_diameter`). -/
structure TapHandleSpec where
  shaft_od : ℚ := 12.5
  shaft_length : ℚ := 140
  shaft_hex_length : ℚ := 10.0
  tap_diameter : ℚ := 3.0
  tap_square_length : ℚ := 10.0
  tap_round_length : ℚ := 2.0
  handle_base_diameter : ℚ := 30.0
  handle_t_width : ℚ := 15.0
  handle_t_length : ℚ := 120.0
  handle_t_length_2 : ℚ := 60.0
  handle_t_height : ℚ := 10.0
deriving DecidableEq, Repr

/-- The derived read-only `@property`: `tap_diameter / (2**0.5)`
(`tap_diameter` is the hypotenuse of the square interface).  Recomputed
from the current `tap_diameter` on every access, exactly as a Python
`@property` is. -/
noncomputable def TapHandleSpec.tap_square_side_length (s : TapHandleSpec) : ℝ :=
  (s.tap_diameter : ℝ) / (2 : ℝ) ^ (0.5 : ℝ)

/-- Python attribute assignment `s.tap_diameter = d` on the non-frozen
dataclass, as a functional record update. -/
def TapHandleSpec.set_tap_diameter (s : TapHandleSpec) (d : ℚ) : TapHandleSpec :=
  { s with tap_diameter := d }

/-- The T-shaped handle before filleting: `bd.Part(None)` plus the base
cylinder plus the two boxes, all `ANCHOR_TOP` (source lines 48-65). -/
noncomputable def handle_part_raw (spec : TapHandleSpec) : Shape :=
  Shape.add (Shape.add (Shape.add Shape.empty
    (Shape.cylinder ((spec.handle_base_diameter : ℝ) / 2) (spec.handle_t_height : ℝ)
      Align.anchorTop))
    (Shape.box (spec.handle_t_length : ℝ) (spec.handle_t_width : ℝ)
      (spec.handle_t_height : ℝ) Align.anchorTop))
    (Shape.box (spec.handle_t_width : ℝ) (spec.handle_t_length_2 : ℝ)
      (spec.handle_t_height : ℝ) Align.anchorTop)

/-- `handle_part = bd.Pos(Z=0.1) * bd.fillet(handle_part.edges(), 4.5)`
(source line 66); `E` is the kernel's edge enumeration. -/
noncomputable def handle_part (spec : TapHandleSpec) (E : Shape → List Edge) : Shape :=
  Shape.pos 0.1 (Shape.fillet 4.5 (E (handle_part_raw spec)) (handle_part_raw spec))

/-- The shaft: main cylinder (`ANCHOR_BOTTOM`, height
`shaft_length - shaft_hex_length`) plus the hexagonal prism extruded from
`Z = shaft_length - shaft_hex_length - 0.01` (source lines 69-87). -/
noncomputable def shaft_part (spec : TapHandleSpec) : Shape :=
  Shape.add (Shape.add Shape.empty
    (Shape.cylinder ((spec.shaft_od : ℝ) / 2)
      ((spec.shaft_length : ℝ) - (spec.shaft_hex_length : ℝ)) Align.anchorBottom))
    (Shape.pos ((spec.shaft_length : ℝ) - (spec.shaft_hex_length : ℝ) - 0.01)
      (Shape.extrude (Sketch.regularPolygon ((spec.shaft_od : ℝ) / 2) 6)
        (spec.shaft_hex_length : ℝ)))

/-- `p = bd.Part(None) + handle_part + shaft_part` (source line 90). -/
noncomputable def combined (spec : TapHandleSpec) (E : Shape → List Edge) : Shape :=
  Shape.add (Shape.add Shape.empty (handle_part spec E)) (shaft_part spec)

/-- The edge-selection condition of the list comprehension
(source lines 98-106), verbatim from the code. -/
def edgeCond (spec : TapHandleSpec) (e : Edge) : Prop :=
  |e.center.Z| < 0.2 ∧
    ((spec.shaft_od / 2) ^ 2 - 1 < e.center.X ^ 2 + e.center.Y ^ 2 ∧
      (spec.handle_base_diameter / 2) ^ 2 + 1 > e.center.X ^ 2 + e.center.Y ^ 2)

instance (spec : TapHandleSpec) (e : Edge) : Decidable (edgeCond spec e) := by
  unfold edgeCond; infer_instance

/-- `intersection_edges = [edge for edge in p.edges() if …]`
(source lines 95-107). -/
def intersection_edges (spec : TapHandleSpec) (edges : List Edge) : List Edge :=
  edges.filter fun e => decide (edgeCond spec e)

/-- `Pos(Z=shaft_length) * Box(tssl, tssl, tap_square_length, ANCHOR_TOP)`:
the square-socket cut (source lines 117-122). -/
noncomputable def squareCut (spec : TapHandleSpec) : Shape :=
  Shape.pos (spec.shaft_length : ℝ)
    (Shape.box spec.tap_square_side_length spec.tap_square_side_length
      (spec.tap_square_length : ℝ) Align.anchorTop)

/-- `Pos(Z=shaft_length) * Cylinder(tap_diameter/2, tap_round_length,
ANCHOR_TOP)`: the round relief bore (source lines 123-127). -/
noncomputable def roundCut (spec : TapHandleSpec) : Shape :=
  Shape.pos (spec.shaft_length : ℝ)
    (Shape.cylinder ((spec.tap_diameter : ℝ) / 2) (spec.tap_round_length : ℝ)
      Align.anchorTop)

/-- `Pos(Z=-handle_t_height - 0.1) * Cylinder(4.9/2, 50, ANCHOR_BOTTOM)`:
the bolt-clearance hole (source lines 130-134). -/
noncomputable def boltCut (spec : TapHandleSpec) : Shape :=
  Shape.pos (-(spec.handle_t_height : ℝ) - 0.1)
    (Shape.cylinder ((4.9 : ℝ) / 2) 50 Align.anchorBottom)

/-- The tail of the builder after the edge selection succeeded: the
junction fillet of radius 3.5 on the selected edges, then the three
subtractions in source order (lines 111-134). -/
noncomputable def assemble (spec : TapHandleSpec) (E : Shape → List Edge)
    (sel : List Edge) : Shape :=
  Shape.diff
    (Shape.diff
      (Shape.diff (Shape.fillet 3.5 sel (combined spec E)) (squareCut spec))
      (roundCut spec))
    (boltCut spec)

/-- `make_tap_handle` (source lines 45-136).  The `assert
len(intersection_edges) > 0` is the sole failure point of the builder and
is modelled as the `none` branch; every other step is a kernel call
recorded in the returned `Shape`. -/
noncomputable def make_tap_handle (spec : TapHandleSpec) (E : Shape → List Edge) :
    Option Shape :=
  match intersection_edges spec (E (combined spec E)) with
  | [] => none
  | e :: es => some (assemble spec E (e :: es))

/-- State-passing embedding of the builder call: the Python builder
receives the spec object by reference, and its body contains only
attribute reads (`spec.…`) and no attribute assignment, so the spec
threads through unchanged alongside the result. -/
noncomputable def make_tap_handle_state (spec : TapHandleSpec) (E : Shape → List Edge) :
    Option Shape × TapHandleSpec :=
  (make_tap_handle spec E, spec)

/-- The right operand of the outermost `diff` of a shape: the subtrahend
of the last subtraction performed on it, if any. -/
def lastSubtracted : Shape → Option Shape
  | Shape.diff _ b => some b
  | _ => none

/-! ## The export step (`__main__`, source lines 139-163) -/

/-- A value in the `parts` dict: one of the kernel's solid-like classes
(`bd.Part`, `bd.Solid`, `bd.Compound`) or an instance of some other class,
carrying that class's printed name. -/
inductive KernelValue where
  | part
  | solid
  | compound
  | other (typeName : String)
deriving DecidableEq, Repr

/-- `isinstance(part, bd.Part | bd.Solid | bd.Compound)` (source line 156). -/
def solidLike : KernelValue → Bool
  | KernelValue.part => true
  | KernelValue.solid => true
  | KernelValue.compound => true
  | KernelValue.other _ => false

/-- What `type(part)` prints in the assertion message, as a string. -/
def KernelValue.printedType : KernelValue → String
  | KernelValue.part => "Part"
  | KernelValue.solid => "Solid"
  | KernelValue.compound => "Compound"
  | KernelValue.other t => t

/-- The assertion message
`f"{name} is not an expected type ({type(part)})"` (source lines 156-158). -/
def assertMsg (name : String) (v : KernelValue) : String :=
  name ++ " is not an expected type (" ++ v.printedType ++ ")"

/-- The two files `export_stl` / `export_step` write for one dict entry
(source lines 162-163). -/
def exportFilesOf (p : String × KernelValue) : List String :=
  [p.1 ++ ".stl", p.1 ++ ".step"]

/-- The export loop (source lines 155-163): for each entry in order,
assert the value is solid-like (stopping with the assertion message
otherwise, exporting nothing for that entry), then write `<name>.stl` and
`<name>.step`.  Returns the list of files written and the failure message,
if any. -/
def runExport : List (String × KernelValue) → List String × Option String
  | [] => ([], none)
  | p :: rest =>
    if solidLike p.2 then
      (exportFilesOf p ++ (runExport rest).1, (runExport rest).2)
    else
      ([], some (assertMsg p.1 p.2))

/-- Modelled from the spec: the Z coordinate of the bottom plane of the
handle as the builder leaves it.  All three handle primitives are
`ANCHOR_TOP` with height `handle_t_height`, so the raw handle occupies
`Z ∈ [-handle_t_height, 0]`; the uniform fillet stays inside that solid
and keeps its planar bottom face, and `Pos(Z=0.1)` then shifts the whole
handle up by `0.1` (spec §4.2 step 1). -/
noncomputable def handleBottomZ (spec : TapHandleSpec) : ℝ :=
  -(spec.handle_t_height : ℝ) + 0.1

/-! ## Shared concrete fixtures for witnesses -/

/-- The default specification, `TapHandleSpec()`. -/
def defaultSpec : TapHandleSpec := {}

/-- A concrete edge centroid on the handle/shaft junction ring of the
default geometry: `(7, 0, 0)` satisfies the selection filter there. -/
def e0 : Edge := { center := { X := 7, Y := 0, Z := 0 } }

/-- A concrete kernel edge enumeration returning the single edge `e0` for
every shape. -/
def E0 : Shape → List Edge := fun _ => [e0]

/-- The selection filter keeps `e0` under the default spec. -/
theorem intersection_edges_default_e0 :
    intersection_edges defaultSpec [e0] = [e0] := by
  have h : edgeCond defaultSpec e0 := by
    unfold edgeCond defaultSpec e0
    norm_num
  simp [intersection_edges, h]

/-- If the selection filter returns `e :: es`, the builder returns
`assemble` applied to that list. -/
theorem make_tap_handle_eq_some {spec : TapHandleSpec} {E : Shape → List Edge}
    {e : Edge} {es : List Edge}
    (h : intersection_edges spec (E (combined spec E)) = e :: es) :
    make_tap_handle spec E = some (assemble spec E (e :: es)) := by
  unfold make_tap_handle
  rw [h]

/-- If the selection filter returns the empty list, the builder fails
(the `assert` raises). -/
theorem make_tap_handle_eq_none {spec : TapHandleSpec} {E : Shape → List Edge}
    (h : intersection_edges spec (E (combined spec E)) = []) :
    make_tap_handle spec E = none := by
  unfold make_tap_handle
  rw [h]

/-! ## The claims -/

/-- Claim C1: for every `TapHandleSpec`, the derived property
`tap_square_side_length` equals `tap_diameter` divided by the square root
of 2 (the tap diameter being the hypotenuse of the square cross-section). -/
theorem claim_C1 (s : TapHandleSpec) :
    s.tap_square_side_length = (s.tap_diameter : ℝ) / Real.sqrt 2 := by
  unfold TapHandleSpec.tap_square_side_length
  rw [Real.sqrt_eq_rpow]
  norm_num

/-- Claim C2: an edge of the combined solid is selected for the junction
fillet iff it is among the kernel-enumerated edges, its centroid has
`|Z| < 0.2`, and the squared radial distance of its centroid from the
shaft axis lies strictly between `(shaft_od/2)² - 1` and
`(handle_base_diameter/2)² + 1`. -/
theorem claim_C2 (spec : TapHandleSpec) (edges : List Edge) (e : Edge) :
    e ∈ intersection_edges spec edges ↔
      e ∈ edges ∧
        (|e.center.Z| < 0.2 ∧
          ((spec.shaft_od / 2) ^ 2 - 1 < e.center.X ^ 2 + e.center.Y ^ 2 ∧
            e.center.X ^ 2 + e.center.Y ^ 2 < (spec.handle_base_diameter / 2) ^ 2 + 1)) := by
  simp [intersection_edges, edgeCond, List.mem_filter, gt_iff_lt]

/-- Claim C3: the builder fails (its `assert`) iff the junction
edge-selection filter yields the empty set — its only failure point — and
when at least one edge matches, the fillet of radius 3.5 is applied to
exactly the selected edge list before the three subtractions. -/
theorem claim_C3 (spec : TapHandleSpec) (E : Shape → List Edge) :
    (make_tap_handle spec E = none ↔
        intersection_edges spec (E (combined spec E)) = []) ∧
      ∀ e es, intersection_edges spec (E (combined spec E)) = e :: es →
        make_tap_handle spec E =
          some (Shape.diff (Shape.diff (Shape.diff
            (Shape.fillet 3.5 (e :: es) (combined spec E))
            (squareCut spec)) (roundCut spec)) (boltCut spec)) := by
  constructor
  · constructor
    · intro hn
      rcases h : intersection_edges spec (E (combined spec E)) with _ | ⟨e, es⟩
      · rfl
      · rw [make_tap_handle_eq_some h] at hn
        exact absurd hn (by simp)
    · intro h
      exact make_tap_handle_eq_none h
  · intro e es h
    rw [make_tap_handle_eq_some h]
    rfl

/-- Witness for C3 at the default spec with a one-edge kernel enumeration:
the filter keeps the edge, and the builder returns the filleted and cut
solid. -/
theorem claim_C3_witness :
    make_tap_handle defaultSpec E0 =
      some (Shape.diff (Shape.diff (Shape.diff
        (Shape.fillet 3.5 [e0] (combined defaultSpec E0))
        (squareCut defaultSpec)) (roundCut defaultSpec)) (boltCut defaultSpec)) :=
  (claim_C3 defaultSpec E0).2 e0 [] intersection_edges_default_e0

/-- Counterexample to C4 as stated: at the default spec, the subtrahend of
the builder's last subtraction is a bottom-anchored 4.9/2-radius cylinder
whose bottom sits at `Z = -10 - 0.1 = -10.1`, while 0.1 below the bottom
of the (shifted) handle is `Z = -10`; these differ. -/
theorem claim_C4_counterexample :
    (make_tap_handle defaultSpec E0).bind lastSubtracted = some (boltCut defaultSpec) ∧
      boltCut defaultSpec =
        Shape.pos (-(10 : ℝ) - 0.1)
          (Shape.cylinder ((4.9 : ℝ) / 2) 50 Align.anchorBottom) ∧
      handleBottomZ defaultSpec - 0.1 = (-10 : ℝ) ∧
      (-(10 : ℝ) - 0.1) ≠ (-10 : ℝ) := by
  refine ⟨?_, ?_, ?_, by norm_num⟩
  · rw [make_tap_handle_eq_some intersection_edges_default_e0]
    rfl
  · unfold boltCut defaultSpec
    congr 1
    norm_num
  · unfold handleBottomZ defaultSpec
    norm_num

/-- Claim C4 (amended): the last subtraction of `make_tap_handle` removes
a bottom-anchored cylinder of diameter 4.9 mm and length 50 mm whose
bottom starts 0.2 mm below the bottom of the shifted handle (equivalently
0.1 mm below where the handle's bottom sat before its 0.1 upward shift),
running upward through the handle/shaft base. -/
theorem claim_C4_amended (spec : TapHandleSpec) (E : Shape → List Edge) (r : Shape)
    (h : make_tap_handle spec E = some r) :
    lastSubtracted r =
      some (Shape.pos (handleBottomZ spec - 0.2)
        (Shape.cylinder ((4.9 : ℝ) / 2) 50 Align.anchorBottom)) := by
  rcases hsel : intersection_edges spec (E (combined spec E)) with _ | ⟨e, es⟩
  · rw [make_tap_handle_eq_none hsel] at h
    cases h
  · rw [make_tap_handle_eq_some hsel] at h
    cases h
    show some (boltCut spec) = _
    unfold boltCut handleBottomZ
    congr 2
    ring

/-- Witness for the amended C4 at the default spec with a one-edge kernel
enumeration. -/
theorem claim_C4_witness :
    lastSubtracted (assemble defaultSpec E0 [e0]) =
      some (Shape.pos (handleBottomZ defaultSpec - 0.2)
        (Shape.cylinder ((4.9 : ℝ) / 2) 50 Align.anchorBottom)) :=
  claim_C4_amended defaultSpec E0 (assemble defaultSpec E0 [e0])
    (make_tap_handle_eq_some intersection_edges_default_e0)

/-- Claim C5: after the junction fillet, the builder first subtracts the
square prism of side `tap_square_side_length` and height
`tap_square_length` top-anchored at `Z = shaft_length`, then the coaxial
cylinder of radius `tap_diameter/2` and height `tap_round_length` at the
same top face (then the bolt hole). -/
theorem claim_C5 (spec : TapHandleSpec) (E : Shape → List Edge) (r : Shape)
    (h : make_tap_handle spec E = some r) :
    r =
      Shape.diff
        (Shape.diff
          (Shape.diff
            (Shape.fillet 3.5 (intersection_edges spec (E (combined spec E)))
              (combined spec E))
            (Shape.pos (spec.shaft_length : ℝ)
              (Shape.box spec.tap_square_side_length spec.tap_square_side_length
                (spec.tap_square_length : ℝ) Align.anchorTop)))
          (Shape.pos (spec.shaft_length : ℝ)
            (Shape.cylinder ((spec.tap_diameter : ℝ) / 2) (spec.tap_round_length : ℝ)
              Align.anchorTop)))
        (boltCut spec) := by
  rcases hsel : intersection_edges spec (E (combined spec E)) with _ | ⟨e, es⟩
  · rw [make_tap_handle_eq_none hsel] at h
    cases h
  · rw [make_tap_handle_eq_some hsel] at h
    cases h
    rfl

/-- Witness for C5 at the default spec with a one-edge kernel
enumeration. -/
theorem claim_C5_witness :
    assemble defaultSpec E0 [e0] =
      Shape.diff
        (Shape.diff
          (Shape.diff
            (Shape.fillet 3.5
              (intersection_edges defaultSpec (E0 (combined defaultSpec E0)))
              (combined defaultSpec E0))
            (Shape.pos (defaultSpec.shaft_length : ℝ)
              (Shape.box defaultSpec.tap_square_side_length
                defaultSpec.tap_square_side_length
                (defaultSpec.tap_square_length : ℝ) Align.anchorTop)))
          (Shape.pos (defaultSpec.shaft_length : ℝ)
            (Shape.cylinder ((defaultSpec.tap_diameter : ℝ) / 2)
              (defaultSpec.tap_round_length : ℝ) Align.anchorTop)))
        (boltCut defaultSpec) :=
  claim_C5 defaultSpec E0 (assemble defaultSpec E0 [e0])
    (make_tap_handle_eq_some intersection_edges_default_e0)

/-- Claim C6: the shaft is the bottom-anchored cylinder of radius
`shaft_od/2` and height `shaft_length - shaft_hex_length` unioned with the
regular hexagonal prism of circumradius `shaft_od/2` extruded for
`shaft_hex_length`, whose bottom sits 0.01 below the top of the
cylindrical section. -/
theorem claim_C6 (spec : TapHandleSpec) :
    shaft_part spec =
      Shape.union
        (Shape.cylinder ((spec.shaft_od : ℝ) / 2)
          ((spec.shaft_length : ℝ) - (spec.shaft_hex_length : ℝ)) Align.anchorBottom)
        (Shape.pos (((spec.shaft_length : ℝ) - (spec.shaft_hex_length : ℝ)) - 0.01)
          (Shape.extrude (Sketch.regularPolygon ((spec.shaft_od : ℝ) / 2) 6)
            (spec.shaft_hex_length : ℝ))) :=
  rfl

/-- Running the export loop over well-typed entries followed by an entry
of a non-solid-like type writes exactly the well-typed prefix's files and
stops with the assertion message naming that entry. -/
theorem runExport_append_other (pre : List (String × KernelValue))
    (post : List (String × KernelValue)) (n t : String)
    (h1 : ∀ p ∈ pre, solidLike p.2 = true) :
    runExport (pre ++ (n, KernelValue.other t) :: post) =
      (pre.flatMap exportFilesOf, some (assertMsg n (KernelValue.other t))) := by
  induction pre with
  | nil => simp [runExport, solidLike]
  | cons p pre ih =>
    have hp : solidLike p.2 = true := h1 p (by simp)
    have hrest : ∀ q ∈ pre, solidLike q.2 = true := fun q hq => h1 q (by simp [hq])
    simp [runExport, hp, ih hrest]

/-- The export loop finishes without an assertion failure iff every entry
is solid-like. -/
theorem runExport_ok_iff (kvs : List (String × KernelValue)) :
    (runExport kvs).2 = none ↔ ∀ p ∈ kvs, solidLike p.2 = true := by
  induction kvs with
  | nil => simp [runExport]
  | cons p rest ih =>
    by_cases hp : solidLike p.2 = true
    · simp [runExport, hp, ih]
    · simp [runExport, hp]

/-- Claim C7: the `__main__` export loop checks each value is one of the
kernel's solid-like types (Part, Solid, Compound); a value of any other
type makes it fail with the assertion message naming the offending key and
the actual type, none of that value's files are written, and the loop
succeeds exactly when every value is solid-like. -/
theorem claim_C7 (pre post : List (String × KernelValue)) (n t : String)
    (h1 : ∀ p ∈ pre, solidLike p.2 = true)
    (h2 : (n ++ ".stl") ∉ pre.flatMap exportFilesOf) :
    runExport (pre ++ (n, KernelValue.other t) :: post) =
        (pre.flatMap exportFilesOf, some (assertMsg n (KernelValue.other t))) ∧
      (n ++ ".stl") ∉ (runExport (pre ++ (n, KernelValue.other t) :: post)).1 ∧
      ∀ kvs : List (String × KernelValue),
        (runExport kvs).2 = none ↔ ∀ p ∈ kvs, solidLike p.2 = true := by
  refine ⟨runExport_append_other pre post n t h1, ?_, runExport_ok_iff⟩
  rw [runExport_append_other pre post n t h1]
  exact h2

/-- Witness for C7: one good entry `"a"` followed by a bad entry `"b"` of
type `"int"`: only `a.stl` and `a.step` are written and the loop stops
with the message naming `"b"` and `"int"`. -/
theorem claim_C7_witness :
    runExport [("a", KernelValue.part), ("b", KernelValue.other "int")] =
        ([("a", KernelValue.part)].flatMap exportFilesOf,
          some (assertMsg "b" (KernelValue.other "int"))) ∧
      ("b" ++ ".stl") ∉
        (runExport [("a", KernelValue.part), ("b", KernelValue.other "int")]).1 ∧
      ∀ kvs : List (String × KernelValue),
        (runExport kvs).2 = none ↔ ∀ p ∈ kvs, solidLike p.2 = true :=
  claim_C7 [("a", KernelValue.part)] [] "b" "int" (by decide) (by decide)

/-- Claim C8: the builder is deterministic — two specs with equal field
values (against the same kernel) produce equal results. -/
theorem claim_C8 (s1 s2 : TapHandleSpec) (E : Shape → List Edge)
    (h1 : s1.shaft_od = s2.shaft_od)
    (h2 : s1.shaft_length = s2.shaft_length)
    (h3 : s1.shaft_hex_length = s2.shaft_hex_length)
    (h4 : s1.tap_diameter = s2.tap_diameter)
    (h5 : s1.tap_square_length = s2.tap_square_length)
    (h6 : s1.tap_round_length = s2.tap_round_length)
    (h7 : s1.handle_base_diameter = s2.handle_base_diameter)
    (h8 : s1.handle_t_width = s2.handle_t_width)
    (h9 : s1.handle_t_length = s2.handle_t_length)
    (h10 : s1.handle_t_length_2 = s2.handle_t_length_2)
    (h11 : s1.handle_t_height = s2.handle_t_height) :
    make_tap_handle s1 E = make_tap_handle s2 E := by
  have hs : s1 = s2 := by
    cases s1
    cases s2
    simp_all
  rw [hs]

/-- Witness for C8: the default spec and the `__main__` spec
(`tap_diameter=3.0`, everything else defaulted) have equal fields and give
equal results. -/
theorem claim_C8_witness :
    make_tap_handle defaultSpec E0 =
      make_tap_handle { tap_diameter := 3.0 } E0 :=
  claim_C8 defaultSpec { tap_diameter := 3.0 } E0
    rfl rfl rfl rfl rfl rfl rfl rfl rfl rfl rfl

/-- Claim C9: the builder never mutates its input — the state-passing
embedding of the call returns the spec with every field unchanged. -/
theorem claim_C9 (spec : TapHandleSpec) (E : Shape → List Edge) :
    (make_tap_handle_state spec E).2 = spec :=
  rfl

/-- Claim C10: `TapHandleSpec` is an ordinary non-frozen dataclass, so
`tap_diameter` may be reassigned, and the `tap_square_side_length`
property is recomputed from the current `tap_diameter` on every access:
after `s.tap_diameter = d` it equals `d / √2`. -/
theorem claim_C10 (s : TapHandleSpec) (d : ℚ) :
    (s.set_tap_diameter d).tap_square_side_length = (d : ℝ) / Real.sqrt 2 := by
  unfold TapHandleSpec.set_tap_diameter TapHandleSpec.tap_square_side_length
  rw [Real.sqrt_eq_rpow]
  norm_num
